import Mathlib

/-!
# Verification of the CLReductionOperation staged-reduction orchestrator

Shallow embedding of `src/runtime/CL/functions/CLReductionOperation.cpp`
(ARM Compute Library).  The file models, in order of appearance in the
source:

* the data model (`TensorShape`, `DataType`, `TensorInfo`,
  `ReductionOperation`, `Status`);
* the anonymous-namespace helper `calculate_number_of_stages`;
* `CLReductionOperation::validate`, parametrised over the external
  kernel-validation contract `CLReductionOperationKernel::validate`
  and instrumented with an event trace;
* `CLReductionOperation::configure`, producing the configured pipeline
  state (intermediate tensor infos, per-stage kernel configurations,
  memory-group interactions) as data;
* `CLReductionOperation::run`, producing the ordered list of scheduler
  submissions as data.

The C++ expression `ceil(x / 128.f)` on an unsigned extent is modelled
faithfully, including the binary32 rounding of the conversion of `x` to
`float`: the conversion rounds `x` to 24 significant bits (to nearest,
ties to even); the subsequent division by 128 only shifts the exponent
and is exact, and the ceiling of the resulting float is exact.  So the
computed value is `ceil(floatRound x / 128)` with `floatRound` the
integer-valued binary32 rounding.  For `x < 2^24` this coincides with
exact ceiling division; above, it can differ (e.g. `x = 16777217`
rounds to `16777216`, giving 131072 instead of the exact 131073).
-/

namespace CLRed

/-- A tensor shape: the ordered per-dimension extents.
`dims.headD 0` plays the role of `TensorShape::x()` / `dimension(0)`. -/
structure TensorShape where
  dims : List Nat
  deriving DecidableEq, Repr

/-- `TensorShape::x()`, i.e. `dimension(0)`: the axis-0 extent. -/
def TensorShape.x (s : TensorShape) : Nat := s.dims.headD 0

/-- `TensorShape::set(0, v)`: replace the axis-0 extent, keep the rest. -/
def TensorShape.set0 (s : TensorShape) (v : Nat) : TensorShape :=
  ⟨v :: s.dims.tail⟩

/-- Modelled from the spec: the element data type with its quantization
flag (`arm_compute::DataType` and `is_data_type_quantized` live in
headers outside the provided source).  The spec's data model needs only
"element data type, quantization flag". -/
inductive DataType
  | F16
  | F32
  | U8
  | QASYMM8
  deriving DecidableEq, Repr

/-- Modelled from the spec: `is_data_type_quantized`; `QASYMM8` is the
quantized encoding named in the source's comment. -/
def is_data_type_quantized : DataType → Bool
  | DataType.QASYMM8 => true
  | _ => false

/-- The slice of `arm_compute::TensorInfo` the orchestrator reads and
writes: shape, element data type, channel count (the spec's
`TensorDescriptor`). -/
structure TensorInfo where
  tensor_shape : TensorShape
  data_type : DataType
  num_channels : Nat
  deriving DecidableEq, Repr

instance : Inhabited TensorInfo :=
  ⟨{ tensor_shape := ⟨[]⟩, data_type := DataType.F32, num_channels := 1 }⟩

/-- Modelled from the spec: `arm_compute::ReductionOperation`.  The
staged path supports SUM, MEAN_SUM and SUM_SQUARE; `OTHER` stands for
the spec's "other-kinds-not-supported-in-staged-path". -/
inductive ReductionOperation
  | SUM
  | MEAN_SUM
  | SUM_SQUARE
  | OTHER
  deriving DecidableEq, Repr

/-- The recoverable status returned by the external kernel-validation
contract (`arm_compute::Status`). -/
inductive Status
  | ok
  | error (msg : String)
  deriving DecidableEq, Repr

/-- Outcome of a call into the orchestrator: success, a recoverable
error `Status` propagated by `ARM_COMPUTE_RETURN_ON_ERROR`, or the
fatal abort raised by `ARM_COMPUTE_ERROR`. -/
inductive Outcome
  | ok
  | err (msg : String)
  | abort (msg : String)
  deriving DecidableEq, Repr

/-- `true` exactly on a recoverable error status (not on the fatal
abort). -/
def Outcome.isErr : Outcome → Bool
  | Outcome.err _ => true
  | _ => false

/-- Number of halvings needed to bring `x` below `2^24`, the binary32
significand width; equivalently `e - 23` for `2^e ≤ x < 2^(e+1)` when
`x ≥ 2^24`, and 0 otherwise.  The first argument is recursion fuel,
always passed `≥` the needed count (the count is at most `log2 x`). -/
def shiftCount : Nat → Nat → Nat
  | 0, _ => 0
  | fuel + 1, x => if x < 2 ^ 24 then 0 else shiftCount fuel (x / 2) + 1

/-- The integer value of `x` converted to an IEEE-754 binary32 `float`
(round to nearest, ties to even): `x` is rounded to a multiple of its
binade's unit in the last place `2^(e-23)`, with a tie going to the
even significand.  For `x < 2^24` the conversion is exact. -/
def floatRound (x : Nat) : Nat :=
  let ulp := 2 ^ shiftCount x x
  let q := x / ulp
  let r := x % ulp
  if r * 2 < ulp then q * ulp
  else if ulp < r * 2 then (q + 1) * ulp
  else if q % 2 = 0 then q * ulp else (q + 1) * ulp

/-- The value the C++ `ceil(x / 128.f)` computes on an unsigned extent
`x`: the conversion of `x` to `float` rounds it to binary32
(`floatRound`); dividing that float by 128 only decrements the
exponent, and taking the ceiling of the exact quotient of naturals is
then exact, so the result is the exact ceiling `⌈floatRound x / 128⌉`. -/
def ceil128 (x : Nat) : Nat := (floatRound x + 127) / 128

/-- `calculate_number_of_stages` (source lines 40-55):
one stage unless `axis == 0` on a non-quantized type; otherwise
`num_of_wg = ceil(dimension(0) / 128.f)` and
`num_of_stages = num_of_wg / 128 + 2`. -/
def calculate_number_of_stages (input : TensorInfo) (axis : Nat) : Nat :=
  if axis ≠ 0 ∨ (axis = 0 ∧ is_data_type_quantized input.data_type) then
    1
  else
    let num_of_wg := ceil128 input.tensor_shape.x
    num_of_wg / 128 + 2

/-- One call into the external reduction-kernel contract
(`CLReductionOperationKernel::validate` / `::configure`):
input, output, axis, kind and the trailing `width` argument
(defaulted to 0 when the call site omits it). -/
structure KernelCall where
  input : TensorInfo
  output : TensorInfo
  axis : Nat
  op : ReductionOperation
  width : Nat
  deriving DecidableEq, Repr

instance : Inhabited KernelCall :=
  ⟨{ input := default, output := default, axis := 0,
     op := ReductionOperation.SUM, width := 0 }⟩

/-- One border-fill configuration
(`CLFillBorderKernel::configure(target, border_size, CONSTANT,
PixelValue(0))`); the halo size is external, so only the target and the
owning stage index are recorded. -/
structure BorderCall where
  target : TensorInfo
  stage : Nat
  deriving DecidableEq, Repr

/-- Observable effects of `validate` and `configure`. -/
inductive Event
  | kernelValidate (c : KernelCall)
  | kernelConfigure (c : KernelCall)
  | borderConfigure (b : BorderCall)
  | manage (i : Nat)
  | allocate (i : Nat)
  deriving DecidableEq, Repr

/-- `true` exactly on a kernel-validation event. -/
def Event.isKernelValidate : Event → Bool
  | Event.kernelValidate _ => true
  | _ => false

/-! ## The intermediate-tensor loops

`validate` (lines 73-81) and `configure` (lines 135-140) each build the
chain of intermediate `TensorInfo`s with their own loop; both mutate a
copy of the input's shape via `shape.set(0, ceil(shape.x() / 128.f))`.
`validate` fills default-constructed infos field by field, `configure`
clones the input's info and overwrites the shape.  They are translated
separately and proved equal below. -/

/-- Loop body of `validate` lines 75-81, unrolled over the remaining
iteration count: each step shrinks axis 0 and records an info carrying
the input's data type and channel count. -/
def validateSumsAux (dt : DataType) (nc : Nat) : TensorShape → Nat → List TensorInfo
  | _, 0 => []
  | shape, k + 1 =>
    let shape' := shape.set0 (ceil128 shape.x)
    { tensor_shape := shape', data_type := dt, num_channels := nc } ::
      validateSumsAux dt nc shape' k

/-- The `sums_vector` tensor infos created by `validate`
(lines 70-81): `num_of_stages - 1` entries. -/
def validateSums (input : TensorInfo) (num_of_stages : Nat) : List TensorInfo :=
  validateSumsAux input.data_type input.num_channels input.tensor_shape (num_of_stages - 1)

/-- Loop body of `configure` lines 136-140: each step shrinks axis 0
and records `input->info()->clone()->set_tensor_shape(shape)`. -/
def configureSumsAux (input : TensorInfo) : TensorShape → Nat → List TensorInfo
  | _, 0 => []
  | shape, k + 1 =>
    let shape' := shape.set0 (ceil128 shape.x)
    { input with tensor_shape := shape' } :: configureSumsAux input shape' k

/-- The `_sums_vector` tensor infos initialised by `configure`
(lines 134-140): `_num_of_stages - 1` entries. -/
def configureSums (input : TensorInfo) (num_of_stages : Nat) : List TensorInfo :=
  configureSumsAux input input.tensor_shape (num_of_stages - 1)

/-! ## Operation selection

The `switch(op)` appears verbatim in both `validate` (lines 85-98) and
`configure` (lines 147-160); `none` stands for the `default:` branch's
`ARM_COMPUTE_ERROR("Not supported")`. -/

/-- The op-selection switch of `validate` lines 85-98. -/
def validateFirstLastOps : ReductionOperation → Option (ReductionOperation × ReductionOperation)
  | ReductionOperation.SUM => some (ReductionOperation.SUM, ReductionOperation.SUM)
  | ReductionOperation.MEAN_SUM => some (ReductionOperation.SUM, ReductionOperation.MEAN_SUM)
  | ReductionOperation.SUM_SQUARE => some (ReductionOperation.SUM_SQUARE, ReductionOperation.SUM)
  | _ => none

/-- The op-selection switch of `configure` lines 147-160. -/
def configureFirstLastOps : ReductionOperation → Option (ReductionOperation × ReductionOperation)
  | ReductionOperation.SUM => some (ReductionOperation.SUM, ReductionOperation.SUM)
  | ReductionOperation.MEAN_SUM => some (ReductionOperation.SUM, ReductionOperation.MEAN_SUM)
  | ReductionOperation.SUM_SQUARE => some (ReductionOperation.SUM_SQUARE, ReductionOperation.SUM)
  | _ => none

/-! ## validate -/

/-- The ordered kernel-validation calls `validate` issues on the staged
path when no earlier call fails (lines 101, 104-107, 110-111): input
into `sums[0]` with the first kind, each middle hop with plain SUM, and
`sums[last_stage-1]` into the caller's output with the last kind and
the input's original axis-0 extent as `width`. -/
def validatePlannedCalls (input output : TensorInfo) (axis : Nat)
    (first_kernel_op last_kernel_op : ReductionOperation) : List KernelCall :=
  let num_of_stages := calculate_number_of_stages input axis
  let sums_vector := validateSums input num_of_stages
  let last_stage := num_of_stages - 1
  { input := input, output := sums_vector.headD default, axis := axis,
    op := first_kernel_op, width := 0 } ::
  (List.range (num_of_stages - 1)).tail.map (fun i =>
    { input := sums_vector.getD (i - 1) default,
      output := sums_vector.getD i default, axis := axis,
      op := ReductionOperation.SUM, width := 0 }) ++
  [{ input := sums_vector.getD (last_stage - 1) default, output := output,
     axis := axis, op := last_kernel_op, width := input.tensor_shape.x }]

/-- Run a chain of `ARM_COMPUTE_RETURN_ON_ERROR(kval ...)` calls:
stop at (and propagate) the first failing status, recording the calls
actually issued. -/
def runValidations (kval : KernelCall → Status) : List KernelCall → Outcome × List Event
  | [] => (Outcome.ok, [])
  | c :: cs =>
    match kval c with
    | Status.error m => (Outcome.err m, [Event.kernelValidate c])
    | Status.ok =>
      let r := runValidations kval cs
      (r.1, Event.kernelValidate c :: r.2)

/-- `CLReductionOperation::validate` (lines 63-119), parametrised over
the external `CLReductionOperationKernel::validate` contract `kval`,
returning the outcome and the trace of observable effects. -/
def validate (kval : KernelCall → Status) (input output : TensorInfo)
    (axis : Nat) (op : ReductionOperation) : Outcome × List Event :=
  if axis = 0 ∧ ¬ is_data_type_quantized input.data_type then
    match validateFirstLastOps op with
    | none => (Outcome.abort "Not supported", [])
    | some (first_kernel_op, last_kernel_op) =>
      runValidations kval (validatePlannedCalls input output axis first_kernel_op last_kernel_op)
  else
    runValidations kval
      [{ input := input, output := output, axis := axis, op := op, width := 0 }]

/-! ## configure -/

/-- The pipeline state `configure` leaves behind: the member fields it
sets, the intermediate tensor infos, and the ordered trace of kernel
configurations, border-fill configurations and memory-group calls.
`aborted` is set when `ARM_COMPUTE_ERROR` fires. -/
structure ConfigResult where
  num_of_stages : Nat
  reduction_axis : Nat
  is_quantized : Bool
  sums : List TensorInfo
  events : List Event
  aborted : Bool
  deriving DecidableEq, Repr

/-- The kernel configurations of a trace, in issue order. -/
def kernelConfigures (es : List Event) : List KernelCall :=
  es.filterMap (fun e =>
    match e with
    | Event.kernelConfigure c => some c
    | _ => none)

/-- `CLReductionOperation::configure` (lines 121-185) as a function
from its arguments to the resulting pipeline state. -/
def configure (input output : TensorInfo) (axis : Nat)
    (op : ReductionOperation) : ConfigResult :=
  let num_of_stages := calculate_number_of_stages input axis
  let is_quantized := is_data_type_quantized input.data_type
  if axis = 0 ∧ ¬ is_quantized then
    let sums := configureSums input num_of_stages
    match configureFirstLastOps op with
    | none =>
      -- lines 133-143 ran; the switch's default branch aborts before
      -- any kernel or border configuration (lines 158-159).
      { num_of_stages := num_of_stages, reduction_axis := axis,
        is_quantized := is_quantized, sums := sums,
        events := [Event.manage 0], aborted := true }
    | some (first_kernel_op, last_kernel_op) =>
      let last_stage := num_of_stages - 1
      let input_width := input.tensor_shape.x
      let firstEvents : List Event :=
        [Event.manage 0,
         Event.kernelConfigure { input := input, output := sums.headD default,
                                 axis := axis, op := first_kernel_op, width := 0 },
         Event.borderConfigure { target := input, stage := 0 }]
      let middleEvents : List Event :=
        (List.range (num_of_stages - 1)).tail.flatMap (fun i =>
          [Event.manage i,
           Event.kernelConfigure { input := sums.getD (i - 1) default,
                                   output := sums.getD i default, axis := axis,
                                   op := ReductionOperation.SUM, width := 0 },
           Event.borderConfigure { target := sums.getD (i - 1) default, stage := i },
           Event.allocate (i - 1)])
      let lastEvents : List Event :=
        [Event.kernelConfigure { input := sums.getD (last_stage - 1) default,
                                 output := output, axis := axis,
                                 op := last_kernel_op, width := input_width },
         Event.borderConfigure { target := sums.getD (last_stage - 1) default,
                                 stage := last_stage },
         Event.allocate (last_stage - 1)]
      { num_of_stages := num_of_stages, reduction_axis := axis,
        is_quantized := is_quantized, sums := sums,
        events := firstEvents ++ middleEvents ++ lastEvents, aborted := false }
  else
    { num_of_stages := num_of_stages, reduction_axis := axis,
      is_quantized := is_quantized, sums := [],
      events := [Event.kernelConfigure { input := input, output := output,
                                         axis := axis, op := op, width := 0 }],
      aborted := false }

/-! ## run -/

/-- Observable effects of `run`: the memory-group acquire/release
bracket and the non-blocking scheduler submissions. -/
inductive RunEvent
  | acquire
  | submitBorder (stage : Nat) (blocking : Bool)
  | submitKernel (stage : Nat) (blocking : Bool)
  | release
  deriving DecidableEq, Repr

/-- `true` exactly on a scheduler submission. -/
def RunEvent.isSubmission : RunEvent → Bool
  | RunEvent.submitBorder _ _ => true
  | RunEvent.submitKernel _ _ => true
  | _ => false

/-- `CLReductionOperation::run` (lines 187-205) as a function of the
member state `configure` stored, returning the ordered event list. -/
def run (reduction_axis : Nat) (is_quantized : Bool) (num_of_stages : Nat) : List RunEvent :=
  RunEvent.acquire ::
  ((if reduction_axis = 0 ∧ ¬ is_quantized then
      (List.range num_of_stages).flatMap (fun i =>
        [RunEvent.submitBorder i false, RunEvent.submitKernel i false])
    else
      [RunEvent.submitKernel 0 false])
   ++ [RunEvent.release])

/-! ## Example tensors used to instantiate the theorems -/

/-- A 100×4 F32 input (the spec's `d = 100` example). -/
def exIn100 : TensorInfo :=
  { tensor_shape := ⟨[100, 4]⟩, data_type := DataType.F32, num_channels := 1 }

/-- A 16000-wide F32 input (the spec's `d = 16000` example). -/
def exIn16000 : TensorInfo :=
  { tensor_shape := ⟨[16000]⟩, data_type := DataType.F32, num_channels := 1 }

/-- A 16384×3 F32 input: wide enough for a 3-stage pipeline
(`ceil(16384/128) = 128`, `128/128 + 2 = 3`), so a middle stage exists. -/
def exIn16384 : TensorInfo :=
  { tensor_shape := ⟨[16384, 3]⟩, data_type := DataType.F32, num_channels := 1 }

/-- A quantized input. -/
def exInQ : TensorInfo :=
  { tensor_shape := ⟨[100, 4]⟩, data_type := DataType.QASYMM8, num_channels := 1 }

/-- A `2^24 + 1`-wide F32 input: the conversion to `float` rounds the
extent down to `2^24`, so `ceil(x / 128.f)` gives 131072 where the
exact ceiling is 131073. -/
def exIn16777217 : TensorInfo :=
  { tensor_shape := ⟨[16777217, 2]⟩, data_type := DataType.F32, num_channels := 1 }

/-- A 33570689-wide F32 input: the float rounding of the extent makes
the program's stage count 2050 where the exact-ceiling formula gives
2051. -/
def exIn33570689 : TensorInfo :=
  { tensor_shape := ⟨[33570689]⟩, data_type := DataType.F32, num_channels := 1 }

/-- A 1×4 output descriptor. -/
def exOut : TensorInfo :=
  { tensor_shape := ⟨[1, 4]⟩, data_type := DataType.F32, num_channels := 1 }

/-- A 1×3 output descriptor. -/
def exOut3 : TensorInfo :=
  { tensor_shape := ⟨[1, 3]⟩, data_type := DataType.F32, num_channels := 1 }

/-- A kernel-validation oracle that accepts everything. -/
def okKernel : KernelCall → Status := fun _ => Status.ok

/-- One pass of the shape-shrinking loop body
`shape.set(0, ceil(shape.x() / 128.f))`. -/
def stepShape (s : TensorShape) : TensorShape := s.set0 (ceil128 s.x)

/-- Iterate `stepShape`, peeling from the front (matching the
recursion pattern of the sums loops). -/
def stepN : TensorShape → Nat → TensorShape
  | s, 0 => s
  | s, k + 1 => stepN (stepShape s) k

/-! ## Helper lemmas -/

lemma shiftCount_small (fuel x : Nat) (h : x < 2 ^ 24) : shiftCount fuel x = 0 := by
  cases fuel with
  | zero => rfl
  | succ m =>
    simp only [shiftCount]
    rw [if_pos h]

lemma floatRound_small (x : Nat) (h : x < 2 ^ 24) : floatRound x = x := by
  simp [floatRound, shiftCount_small x x h, Nat.mod_one, Nat.div_one, Nat.mul_one]

lemma ceil128_small (x : Nat) (h : x < 2 ^ 24) : ceil128 x = (x + 127) / 128 := by
  rw [ceil128, floatRound_small x h]

lemma stepN_succ_back (k : Nat) : ∀ s : TensorShape, stepN s (k + 1) = stepShape (stepN s k) := by
  induction k with
  | zero => intro s; rfl
  | succ m ih => intro s; exact ih (stepShape s)

lemma stepShape_x (s : TensorShape) : (stepShape s).x = ceil128 s.x := rfl

lemma stepShape_tail (s : TensorShape) : (stepShape s).dims.tail = s.dims.tail := rfl

lemma stepN_tail (k : Nat) : ∀ s : TensorShape, (stepN s k).dims.tail = s.dims.tail := by
  induction k with
  | zero => intro s; rfl
  | succ m ih => intro s; rw [stepN, ih (stepShape s), stepShape_tail]

lemma configureSumsAux_length (input : TensorInfo) :
    ∀ (k : Nat) (s : TensorShape), (configureSumsAux input s k).length = k := by
  intro k
  induction k with
  | zero => intro s; rfl
  | succ m ih => intro s; simp [configureSumsAux, ih]

lemma configureSumsAux_getD (input : TensorInfo) :
    ∀ (k i : Nat) (s : TensorShape), i < k →
      (configureSumsAux input s k).getD i default
        = { input with tensor_shape := stepN s (i + 1) } := by
  intro k
  induction k with
  | zero => intro i s h; omega
  | succ m ih =>
    intro i s h
    cases i with
    | zero => rfl
    | succ j =>
      show (configureSumsAux input (stepShape s) m).getD j default = _
      rw [ih j (stepShape s) (by omega)]
      rfl

lemma sumsAux_eq (input : TensorInfo) :
    ∀ (k : Nat) (s : TensorShape),
      validateSumsAux input.data_type input.num_channels s k = configureSumsAux input s k := by
  intro k
  induction k with
  | zero => intro s; rfl
  | succ m ih =>
    intro s
    show _ :: validateSumsAux input.data_type input.num_channels _ m
        = _ :: configureSumsAux input _ m
    rw [ih]

lemma validateSums_eq_configureSums (input : TensorInfo) (n : Nat) :
    validateSums input n = configureSums input n :=
  sumsAux_eq input (n - 1) input.tensor_shape

lemma configureSums_length (input : TensorInfo) (n : Nat) :
    (configureSums input n).length = n - 1 :=
  configureSumsAux_length input (n - 1) input.tensor_shape

lemma configureSums_getD (input : TensorInfo) (n i : Nat) (h : i < n - 1) :
    (configureSums input n).getD i default
      = { input with tensor_shape := stepN input.tensor_shape (i + 1) } :=
  configureSumsAux_getD input (n - 1) i input.tensor_shape h

lemma firstLastOps_eq :
    ∀ op : ReductionOperation, validateFirstLastOps op = configureFirstLastOps op := by
  intro op; cases op <;> rfl

lemma runValidations_all (kval : KernelCall → Status) :
    ∀ cs : List KernelCall, ((runValidations kval cs).2.all Event.isKernelValidate) = true := by
  intro cs
  induction cs with
  | nil => rfl
  | cons c cs ih =>
    show ((match kval c with
            | Status.error m => (Outcome.err m, [Event.kernelValidate c])
            | Status.ok =>
              let r := runValidations kval cs
              (r.1, Event.kernelValidate c :: r.2)).2.all Event.isKernelValidate) = true
    cases kval c with
    | error m => rfl
    | ok => simpa [Event.isKernelValidate] using ih

lemma kernelConfigures_flatMap4 (K : Nat → KernelCall) (B : Nat → BorderCall) (A : Nat → Nat) :
    ∀ is : List Nat,
      kernelConfigures (is.flatMap (fun i =>
        [Event.manage i, Event.kernelConfigure (K i), Event.borderConfigure (B i),
         Event.allocate (A i)])) = is.map K := by
  intro is
  induction is with
  | nil => rfl
  | cons i is ih => simpa [kernelConfigures, List.filterMap_append] using ih

lemma kernelConfigures_append (es fs : List Event) :
    kernelConfigures (es ++ fs) = kernelConfigures es ++ kernelConfigures fs :=
  List.filterMap_append es fs _

lemma calculate_number_of_stages_staged (input : TensorInfo)
    (hq : is_data_type_quantized input.data_type = false) :
    calculate_number_of_stages input 0 = ceil128 input.tensor_shape.x / 128 + 2 := by
  simp [calculate_number_of_stages, hq]

lemma configure_staged (input output : TensorInfo) (op f l : ReductionOperation)
    (hq : is_data_type_quantized input.data_type = false)
    (hop : configureFirstLastOps op = some (f, l)) :
    configure input output 0 op =
      { num_of_stages := calculate_number_of_stages input 0, reduction_axis := 0,
        is_quantized := is_data_type_quantized input.data_type,
        sums := configureSums input (calculate_number_of_stages input 0),
        events :=
          [Event.manage 0,
           Event.kernelConfigure
             { input := input,
               output := (configureSums input (calculate_number_of_stages input 0)).headD default,
               axis := 0, op := f, width := 0 },
           Event.borderConfigure { target := input, stage := 0 }] ++
          (List.range (calculate_number_of_stages input 0 - 1)).tail.flatMap (fun i =>
            [Event.manage i,
             Event.kernelConfigure
               { input := (configureSums input (calculate_number_of_stages input 0)).getD (i - 1) default,
                 output := (configureSums input (calculate_number_of_stages input 0)).getD i default,
                 axis := 0, op := ReductionOperation.SUM, width := 0 },
             Event.borderConfigure
               { target := (configureSums input (calculate_number_of_stages input 0)).getD (i - 1) default,
                 stage := i },
             Event.allocate (i - 1)]) ++
          [Event.kernelConfigure
             { input := (configureSums input (calculate_number_of_stages input 0)).getD
                          (calculate_number_of_stages input 0 - 1 - 1) default,
               output := output, axis := 0, op := l, width := input.tensor_shape.x },
           Event.borderConfigure
             { target := (configureSums input (calculate_number_of_stages input 0)).getD
                           (calculate_number_of_stages input 0 - 1 - 1) default,
               stage := calculate_number_of_stages input 0 - 1 },
           Event.allocate (calculate_number_of_stages input 0 - 1 - 1)],
        aborted := false } := by
  simp [configure, hq, hop]

lemma kernelConfigures_configure (input output : TensorInfo) (op f l : ReductionOperation)
    (hq : is_data_type_quantized input.data_type = false)
    (hop : configureFirstLastOps op = some (f, l)) :
    kernelConfigures (configure input output 0 op).events
      = validatePlannedCalls input output 0 f l := by
  rw [configure_staged input output op f l hq hop]
  show kernelConfigures (_ ++ _ ++ _) = _
  rw [kernelConfigures_append, kernelConfigures_append, kernelConfigures_flatMap4]
  show _ :: _ ++ _ = _
  rw [validatePlannedCalls, validateSums_eq_configureSums]
  rfl

lemma validatePlannedCalls_length (input output : TensorInfo) (f l : ReductionOperation)
    (h2 : 2 ≤ calculate_number_of_stages input 0) :
    (validatePlannedCalls input output 0 f l).length
      = calculate_number_of_stages input 0 := by
  simp only [validatePlannedCalls, List.length_cons, List.length_append, List.length_map,
    List.length_tail, List.length_range, List.length_nil]
  omega

lemma drop_one_dropLast {α : Type} (a x : α) (l : List α) :
    (((a :: l) ++ [x]).drop 1).dropLast = l := by
  rw [List.cons_append, List.drop_succ_cons, List.drop_zero, List.dropLast_concat]

lemma headD_cons_append {α : Type} (a d : α) (l m : List α) :
    ((a :: l) ++ m).headD d = a := by
  rw [List.cons_append]
  rfl

lemma getLastD_append_singleton {α : Type} (l : List α) (x : α) :
    ∀ d : α, (l ++ [x]).getLastD d = x := by
  induction l with
  | nil => intro d; rfl
  | cons a t ih => intro d; rw [List.cons_append, List.getLastD_cons, ih a]

lemma run_count_aux (n : Nat) :
    ((List.range n).flatMap (fun i =>
        [RunEvent.submitBorder i false, RunEvent.submitKernel i false])).countP
      RunEvent.isSubmission = 2 * n := by
  induction n with
  | zero => rfl
  | succ k ih =>
    rw [List.range_succ, List.flatMap_append, List.countP_append, ih, Nat.mul_succ]
    rfl

lemma configure_sums_staged (input output : TensorInfo) (op : ReductionOperation)
    (hq : is_data_type_quantized input.data_type = false) :
    (configure input output 0 op).sums
      = configureSums input (calculate_number_of_stages input 0) := by
  cases hop : configureFirstLastOps op with
  | none => simp [configure, hq, hop]
  | some fl =>
    obtain ⟨f, l⟩ := fl
    rw [configure_staged input output op f l hq hop]

/-! ## Claim theorems -/

/-- C1 counterexample: at axis-0 extent `d = 33570689` (non-quantized,
axis 0) the program's stage count is 2050 — `d` rounds to binary32 as
33570688, giving 262271 workgroups — while the claim's exact formula
`floor(ceil(d / 128) / 128) + 2` gives 2051, so the claimed identity
fails for this input. -/
theorem stage_count_exact_formula_fails :
    calculate_number_of_stages exIn33570689 0 = 2050
    ∧ (exIn33570689.tensor_shape.x + 127) / 128 / 128 + 2 = 2051 := by
  constructor
  · decide
  · decide

/-- C1 (amended): for every input reduced along axis 0 with a
non-quantized data type, `calculate_number_of_stages` returns
`floor(ceil(float32(d) / 128) / 128) + 2`, where `float32(d)` is the
axis-0 extent `d` rounded to the nearest binary32 value (the
conversion the program performs before dividing); whenever
`d < 2^24` — where the conversion is exact — this equals
`floor(ceil(d / 128) / 128) + 2`; in particular `d = 100` gives stage
count 2 with one intermediate buffer of axis-0 extent 1, and
`d = 16000` gives stage count 2. -/
theorem calculate_number_of_stages_formula :
    (∀ input : TensorInfo, is_data_type_quantized input.data_type = false →
      calculate_number_of_stages input 0
        = (floatRound input.tensor_shape.x + 127) / 128 / 128 + 2)
    ∧ (∀ input : TensorInfo, is_data_type_quantized input.data_type = false →
        input.tensor_shape.x < 2 ^ 24 →
        calculate_number_of_stages input 0 = (input.tensor_shape.x + 127) / 128 / 128 + 2)
    ∧ calculate_number_of_stages exIn100 0 = 2
    ∧ (configure exIn100 exOut 0 ReductionOperation.SUM).sums.length = 1
    ∧ ((configure exIn100 exOut 0 ReductionOperation.SUM).sums.getD 0 default).tensor_shape.x = 1
    ∧ calculate_number_of_stages exIn16000 0 = 2 := by
  refine ⟨?_, ?_, by decide, by decide, by decide, by decide⟩
  · intro input hq
    rw [calculate_number_of_stages_staged input hq]
    rfl
  · intro input hq hsmall
    rw [calculate_number_of_stages_staged input hq, ceil128_small _ hsmall]

/-- Witness for C1: the exact formula instantiated at the 100-wide
input. -/
theorem calculate_number_of_stages_formula_witness :
    calculate_number_of_stages exIn100 0 = (exIn100.tensor_shape.x + 127) / 128 / 128 + 2 :=
  calculate_number_of_stages_formula.2.1 exIn100 rfl (by decide)

/-- C2 counterexample: on the staged path, an unsupported reduction
kind makes `validate` hit `ARM_COMPUTE_ERROR` — a fatal abort, not a
returned recoverable error status as the claim states. -/
theorem validate_unsupported_not_recoverable :
    Outcome.isErr (validate okKernel exIn100 exOut 0 ReductionOperation.OTHER).1 = false
    ∧ (validate okKernel exIn100 exOut 0 ReductionOperation.OTHER).1
        = Outcome.abort "Not supported" := ⟨rfl, rfl⟩

/-- C2 (amended): for every reduction kind outside
{SUM, MEAN_SUM, SUM_SQUARE} with axis 0 on a non-quantized input,
`validate` fails deterministically with the fatal "Not supported"
abort (not a recoverable status), issuing no kernel validation, and
`configure` likewise aborts before configuring any kernel. -/
theorem validate_unsupported_aborts :
    ∀ (kval : KernelCall → Status) (input output : TensorInfo) (op : ReductionOperation),
      is_data_type_quantized input.data_type = false →
      op ≠ ReductionOperation.SUM → op ≠ ReductionOperation.MEAN_SUM →
      op ≠ ReductionOperation.SUM_SQUARE →
      validate kval input output 0 op = (Outcome.abort "Not supported", [])
      ∧ (configure input output 0 op).aborted = true
      ∧ kernelConfigures (configure input output 0 op).events = [] := by
  intro kval input output op hq h1 h2 h3
  cases op with
  | SUM => exact absurd rfl h1
  | MEAN_SUM => exact absurd rfl h2
  | SUM_SQUARE => exact absurd rfl h3
  | OTHER =>
    refine ⟨?_, ?_, ?_⟩ <;>
      simp [validate, configure, validateFirstLastOps, configureFirstLastOps,
        kernelConfigures, List.filterMap_cons, List.filterMap_nil, hq]

/-- Witness for the amended C2 at a concrete unsupported kind. -/
theorem validate_unsupported_aborts_witness :
    validate okKernel exIn100 exOut 0 ReductionOperation.OTHER
        = (Outcome.abort "Not supported", [])
    ∧ (configure exIn100 exOut 0 ReductionOperation.OTHER).aborted = true
    ∧ kernelConfigures (configure exIn100 exOut 0 ReductionOperation.OTHER).events = [] :=
  validate_unsupported_aborts okKernel exIn100 exOut ReductionOperation.OTHER rfl
    (by decide) (by decide) (by decide)

/-- C4: with axis ≠ 0, or axis 0 on a quantized type, the stage count
is exactly 1, `configure` creates zero intermediate tensors, and it
configures exactly one kernel reducing the input directly into the
caller-supplied output, for every input size. -/
theorem single_stage_path :
    ∀ (input output : TensorInfo) (axis : Nat) (op : ReductionOperation),
      (axis ≠ 0 ∨ is_data_type_quantized input.data_type = true) →
      calculate_number_of_stages input axis = 1
      ∧ (configure input output axis op).num_of_stages = 1
      ∧ (configure input output axis op).sums = []
      ∧ (configure input output axis op).events
          = [Event.kernelConfigure
               { input := input, output := output, axis := axis, op := op, width := 0 }] := by
  intro input output axis op h
  by_cases ha : axis = 0
  · subst ha
    have hq : is_data_type_quantized input.data_type = true := by
      rcases h with h | h
      · exact absurd rfl h
      · exact h
    refine ⟨?_, ?_, ?_, ?_⟩ <;> simp [calculate_number_of_stages, configure, hq]
  · refine ⟨?_, ?_, ?_, ?_⟩ <;> simp [calculate_number_of_stages, configure, ha]

/-- Witness for C4 at axis 1. -/
theorem single_stage_path_witness :
    (configure exIn100 exOut 1 ReductionOperation.MEAN_SUM).events
      = [Event.kernelConfigure
           { input := exIn100, output := exOut, axis := 1,
             op := ReductionOperation.MEAN_SUM, width := 0 }] :=
  (single_stage_path exIn100 exOut 1 ReductionOperation.MEAN_SUM (Or.inl (by decide))).2.2.2

/-- C9: `validate` is deterministic — two calls with identical
arguments return identical results — and side-effect-free: its effect
trace consists solely of kernel-validation calls, with no allocation,
memory-group registration or configuration events. -/
theorem validate_pure :
    ∀ (kval : KernelCall → Status) (input output : TensorInfo) (axis : Nat)
      (op : ReductionOperation),
      validate kval input output axis op = validate kval input output axis op
      ∧ ((validate kval input output axis op).2.all Event.isKernelValidate) = true := by
  intro kval input output axis op
  refine ⟨rfl, ?_⟩
  unfold validate
  split
  · cases hfl : validateFirstLastOps op with
    | none => rfl
    | some fl =>
      obtain ⟨f, l⟩ := fl
      exact runValidations_all kval _
  · exact runValidations_all kval _

/-- C3: for identical inputs, `validate` and `configure` derive the
same stage count, the same ordered sequence of intermediate tensor
infos (hence shapes), the same (first, last) kind selection, and the
same per-stage kernel calls (input, output, kind, width per stage). -/
theorem validate_configure_agree :
    ∀ (input output : TensorInfo) (op f l : ReductionOperation),
      is_data_type_quantized input.data_type = false →
      validateFirstLastOps op = some (f, l) →
      (configure input output 0 op).num_of_stages = calculate_number_of_stages input 0
      ∧ validateSums input (calculate_number_of_stages input 0)
          = (configure input output 0 op).sums
      ∧ (∀ op' : ReductionOperation, validateFirstLastOps op' = configureFirstLastOps op')
      ∧ kernelConfigures (configure input output 0 op).events
          = validatePlannedCalls input output 0 f l := by
  intro input output op f l hq hop
  have hop' : configureFirstLastOps op = some (f, l) := ((firstLastOps_eq op).symm).trans hop
  refine ⟨?_, ?_, firstLastOps_eq, kernelConfigures_configure input output op f l hq hop'⟩
  · rw [configure_staged input output op f l hq hop']
  · rw [configure_sums_staged input output op hq]
    exact validateSums_eq_configureSums input _

/-- Witness for C3 at the 16384-wide input with MEAN_SUM. -/
theorem validate_configure_agree_witness :
    kernelConfigures (configure exIn16384 exOut3 0 ReductionOperation.MEAN_SUM).events
      = validatePlannedCalls exIn16384 exOut3 0 ReductionOperation.SUM
          ReductionOperation.MEAN_SUM :=
  (validate_configure_agree exIn16384 exOut3 ReductionOperation.MEAN_SUM
      ReductionOperation.SUM ReductionOperation.MEAN_SUM rfl rfl).2.2.2

/-- C5: on the staged path, both op-selection switches map
SUM ↦ (SUM, SUM), MEAN_SUM ↦ (SUM, MEAN_SUM),
SUM_SQUARE ↦ (SUM_SQUARE, SUM), and every middle stage (neither first
nor last) of both the validation chain and the configured pipeline
applies plain SUM. -/
theorem operation_selection :
    (validateFirstLastOps ReductionOperation.SUM
        = some (ReductionOperation.SUM, ReductionOperation.SUM)
      ∧ validateFirstLastOps ReductionOperation.MEAN_SUM
        = some (ReductionOperation.SUM, ReductionOperation.MEAN_SUM)
      ∧ validateFirstLastOps ReductionOperation.SUM_SQUARE
        = some (ReductionOperation.SUM_SQUARE, ReductionOperation.SUM)
      ∧ configureFirstLastOps ReductionOperation.SUM
        = some (ReductionOperation.SUM, ReductionOperation.SUM)
      ∧ configureFirstLastOps ReductionOperation.MEAN_SUM
        = some (ReductionOperation.SUM, ReductionOperation.MEAN_SUM)
      ∧ configureFirstLastOps ReductionOperation.SUM_SQUARE
        = some (ReductionOperation.SUM_SQUARE, ReductionOperation.SUM))
    ∧ ∀ (input output : TensorInfo) (op f l : ReductionOperation),
        is_data_type_quantized input.data_type = false →
        validateFirstLastOps op = some (f, l) →
        (∀ c ∈ ((validatePlannedCalls input output 0 f l).drop 1).dropLast,
          c.op = ReductionOperation.SUM)
        ∧ ∀ c ∈ ((kernelConfigures (configure input output 0 op).events).drop 1).dropLast,
            c.op = ReductionOperation.SUM := by
  constructor
  · exact ⟨rfl, rfl, rfl, rfl, rfl, rfl⟩
  · intro input output op f l hq hop
    have hop' : configureFirstLastOps op = some (f, l) := ((firstLastOps_eq op).symm).trans hop
    have hmain : ∀ c ∈ ((validatePlannedCalls input output 0 f l).drop 1).dropLast,
        c.op = ReductionOperation.SUM := by
      intro c hc
      simp only [validatePlannedCalls] at hc
      rw [drop_one_dropLast] at hc
      obtain ⟨i, _, rfl⟩ := List.mem_map.1 hc
      rfl
    refine ⟨hmain, ?_⟩
    rw [kernelConfigures_configure input output op f l hq hop']
    exact hmain

/-- Witness for C5: the middle stage of the 3-stage pipeline on the
16384-wide input applies plain SUM. -/
theorem operation_selection_witness :
    (((kernelConfigures
          (configure exIn16384 exOut3 0 ReductionOperation.MEAN_SUM).events).drop 1).dropLast.getD
        0 default).op = ReductionOperation.SUM :=
  (operation_selection.2 exIn16384 exOut3 ReductionOperation.MEAN_SUM
      ReductionOperation.SUM ReductionOperation.MEAN_SUM rfl rfl).2 _ (by decide)

/-- C6 counterexample: at input width `16777217 = 2^24 + 1`
(non-quantized, axis 0) the program's first intermediate buffer has
axis-0 extent 131072 — the width rounds to binary32 as 16777216 before
the division — while the claimed exact `ceil(previous / 128)` is
131073, so the claimed extent identity fails for this input. -/
theorem intermediate_extent_exact_ceiling_fails :
    ((configure exIn16777217 exOut 0 ReductionOperation.SUM).sums.getD 0
        default).tensor_shape.x = 131072
    ∧ (exIn16777217.tensor_shape.x + 127) / 128 = 131073 := by
  constructor
  · decide
  · decide

/-- C6 (amended): on the staged path `configure` creates exactly
`number_of_stages − 1` intermediate tensor infos; intermediate `i` has
axis-0 extent `ceil(float32(previous axis-0 extent) / 128)` — the
float-rounded ceiling the program computes (`ceil128`), which equals
the exact `ceil(previous / 128)` whenever the previous extent is below
`2^24` — taking the input's extent as previous for `i = 0`, and keeps
the input's remaining dimension extents, element data type and channel
count unchanged. -/
theorem intermediate_shapes :
    (∀ x : Nat, x < 2 ^ 24 → ceil128 x = (x + 127) / 128)
    ∧ ∀ (input output : TensorInfo) (op : ReductionOperation),
      is_data_type_quantized input.data_type = false →
      (configure input output 0 op).sums.length = calculate_number_of_stages input 0 - 1
      ∧ ∀ i, i < calculate_number_of_stages input 0 - 1 →
          ((configure input output 0 op).sums.getD i default).tensor_shape.x
            = ceil128 (if i = 0 then input.tensor_shape.x
                else ((configure input output 0 op).sums.getD (i - 1) default).tensor_shape.x)
          ∧ ((configure input output 0 op).sums.getD i default).tensor_shape.dims.tail
            = input.tensor_shape.dims.tail
          ∧ ((configure input output 0 op).sums.getD i default).data_type = input.data_type
          ∧ ((configure input output 0 op).sums.getD i default).num_channels
            = input.num_channels := by
  refine ⟨ceil128_small, ?_⟩
  intro input output op hq
  have hsums := configure_sums_staged input output op hq
  constructor
  · rw [hsums]
    exact configureSums_length input _
  · intro i h
    rw [hsums]
    cases i with
    | zero =>
      rw [configureSums_getD input _ 0 h]
      refine ⟨?_, stepN_tail 1 input.tensor_shape, rfl, rfl⟩
      simp [stepN, stepShape_x]
    | succ j =>
      have e1 := configureSums_getD input (calculate_number_of_stages input 0) (j + 1) h
      have e0 := configureSums_getD input (calculate_number_of_stages input 0) j (by omega)
      rw [e1]
      refine ⟨?_, stepN_tail (j + 2) input.tensor_shape, rfl, rfl⟩
      show (stepN input.tensor_shape (j + 2)).x
        = ceil128 (if j + 1 = 0 then input.tensor_shape.x
            else ((configureSums input (calculate_number_of_stages input 0)).getD (j + 1 - 1)
                default).tensor_shape.x)
      rw [if_neg (Nat.succ_ne_zero j), Nat.add_sub_cancel, e0]
      show (stepN input.tensor_shape (j + 2)).x = ceil128 (stepN input.tensor_shape (j + 1)).x
      rw [stepN_succ_back (j + 1) input.tensor_shape, stepShape_x]

/-- Witness for C6: on the 16384-wide input, the second intermediate's
axis-0 extent is the ceiling-by-128 of the first intermediate's. -/
theorem intermediate_shapes_witness :
    ((configure exIn16384 exOut3 0 ReductionOperation.MEAN_SUM).sums.getD 1
        default).tensor_shape.x
      = ceil128 (((configure exIn16384 exOut3 0 ReductionOperation.MEAN_SUM).sums.getD 0
          default).tensor_shape.x) := by
  have h := ((intermediate_shapes.2 exIn16384 exOut3 ReductionOperation.MEAN_SUM rfl).2 1
    (by decide)).1
  simpa using h

/-- C7: on the staged path `run` emits the acquire, then exactly
`2 * num_of_stages` non-blocking submissions — border fill then kernel
for each stage in ascending order — and the release immediately after
the last submission; on the non-staged path it emits exactly one
submission. -/
theorem run_submissions :
    (∀ n : Nat,
      run 0 false n
        = RunEvent.acquire ::
            ((List.range n).flatMap (fun i =>
                [RunEvent.submitBorder i false, RunEvent.submitKernel i false])
              ++ [RunEvent.release])
      ∧ (run 0 false n).countP RunEvent.isSubmission = 2 * n)
    ∧ ∀ (axis : Nat) (q : Bool) (n : Nat), axis ≠ 0 ∨ q = true →
        run axis q n = [RunEvent.acquire, RunEvent.submitKernel 0 false, RunEvent.release]
        ∧ (run axis q n).countP RunEvent.isSubmission = 1 := by
  constructor
  · intro n
    have hr : run 0 false n
        = RunEvent.acquire ::
            ((List.range n).flatMap (fun i =>
                [RunEvent.submitBorder i false, RunEvent.submitKernel i false])
              ++ [RunEvent.release]) := by
      simp [run]
    refine ⟨hr, ?_⟩
    rw [hr, List.countP_cons, List.countP_append, run_count_aux]
    rfl
  · intro axis q n h
    have hr : run axis q n
        = [RunEvent.acquire, RunEvent.submitKernel 0 false, RunEvent.release] := by
      rcases h with h | h
      · simp [run, h]
      · simp [run, h]
    exact ⟨hr, by rw [hr]; rfl⟩

/-- Witness for C7 on the non-staged path (axis 1). -/
theorem run_submissions_witness :
    run 1 false 5 = [RunEvent.acquire, RunEvent.submitKernel 0 false, RunEvent.release]
    ∧ (run 1 false 5).countP RunEvent.isSubmission = 1 :=
  run_submissions.2 1 false 5 (Or.inl (by decide))

/-- C8: for MEAN_SUM with axis 0 on a non-quantized input, both
`validate` and `configure` select SUM for the first stage and MEAN_SUM
for the last stage, and the last stage receives the input's original
axis-0 extent as its extra scalar argument. -/
theorem mean_sum_last_stage :
    ∀ (kval : KernelCall → Status) (input output : TensorInfo),
      is_data_type_quantized input.data_type = false →
      validateFirstLastOps ReductionOperation.MEAN_SUM
          = some (ReductionOperation.SUM, ReductionOperation.MEAN_SUM)
      ∧ validate kval input output 0 ReductionOperation.MEAN_SUM
          = runValidations kval
              (validatePlannedCalls input output 0 ReductionOperation.SUM
                ReductionOperation.MEAN_SUM)
      ∧ ((validatePlannedCalls input output 0 ReductionOperation.SUM
            ReductionOperation.MEAN_SUM).headD default).op = ReductionOperation.SUM
      ∧ ((validatePlannedCalls input output 0 ReductionOperation.SUM
            ReductionOperation.MEAN_SUM).getLastD default).op = ReductionOperation.MEAN_SUM
      ∧ ((validatePlannedCalls input output 0 ReductionOperation.SUM
            ReductionOperation.MEAN_SUM).getLastD default).width = input.tensor_shape.x
      ∧ ((kernelConfigures
            (configure input output 0 ReductionOperation.MEAN_SUM).events).headD
          default).op = ReductionOperation.SUM
      ∧ ((kernelConfigures
            (configure input output 0 ReductionOperation.MEAN_SUM).events).getLastD
          default).op = ReductionOperation.MEAN_SUM
      ∧ ((kernelConfigures
            (configure input output 0 ReductionOperation.MEAN_SUM).events).getLastD
          default).width = input.tensor_shape.x := by
  intro kval input output hq
  have hpc := kernelConfigures_configure input output ReductionOperation.MEAN_SUM
    ReductionOperation.SUM ReductionOperation.MEAN_SUM hq rfl
  have hfirst : ((validatePlannedCalls input output 0 ReductionOperation.SUM
      ReductionOperation.MEAN_SUM).headD default).op = ReductionOperation.SUM := by
    simp only [validatePlannedCalls]
    rw [headD_cons_append]
  have hlastop : ((validatePlannedCalls input output 0 ReductionOperation.SUM
      ReductionOperation.MEAN_SUM).getLastD default).op = ReductionOperation.MEAN_SUM := by
    simp only [validatePlannedCalls]
    rw [getLastD_append_singleton]
  have hlastw : ((validatePlannedCalls input output 0 ReductionOperation.SUM
      ReductionOperation.MEAN_SUM).getLastD default).width = input.tensor_shape.x := by
    simp only [validatePlannedCalls]
    rw [getLastD_append_singleton]
  refine ⟨rfl, ?_, hfirst, hlastop, hlastw, ?_, ?_, ?_⟩
  · simp [validate, hq, validateFirstLastOps]
  · rw [hpc]
    exact hfirst
  · rw [hpc]
    exact hlastop
  · rw [hpc]
    exact hlastw

/-- Witness for C8: on the 100-wide input, the last planned stage's
extra scalar is the original axis-0 width. -/
theorem mean_sum_last_stage_witness :
    ((validatePlannedCalls exIn100 exOut 0 ReductionOperation.SUM
        ReductionOperation.MEAN_SUM).getLastD default).width = exIn100.tensor_shape.x :=
  (mean_sum_last_stage okKernel exIn100 exOut rfl).2.2.2.2.1

/-- C10: on the staged path with a supported kind, the stage count is
always at least 2, so at least one intermediate tensor exists, and the
indices `num_of_stages − 1` and `last_stage − 1` used by validate and
configure stay within the stage and intermediate vectors. -/
theorem stage_count_lower_bound :
    ∀ (input output : TensorInfo) (op : ReductionOperation),
      is_data_type_quantized input.data_type = false →
      (configureFirstLastOps op).isSome = true →
      2 ≤ calculate_number_of_stages input 0
      ∧ (configure input output 0 op).sums.length = calculate_number_of_stages input 0 - 1
      ∧ 1 ≤ (configure input output 0 op).sums.length
      ∧ calculate_number_of_stages input 0 - 1 - 1 < (configure input output 0 op).sums.length
      ∧ (kernelConfigures (configure input output 0 op).events).length
          = calculate_number_of_stages input 0
      ∧ (validateSums input (calculate_number_of_stages input 0)).length
          = calculate_number_of_stages input 0 - 1
      ∧ calculate_number_of_stages input 0 - 1 - 1
          < (validateSums input (calculate_number_of_stages input 0)).length := by
  intro input output op hq hsome
  obtain ⟨⟨f, l⟩, hop⟩ := Option.isSome_iff_exists.1 hsome
  have h2 : 2 ≤ calculate_number_of_stages input 0 := by
    rw [calculate_number_of_stages_staged input hq]
    omega
  have hlen : (configure input output 0 op).sums.length
      = calculate_number_of_stages input 0 - 1 := by
    rw [configure_sums_staged input output op hq, configureSums_length]
  have hklen : (kernelConfigures (configure input output 0 op).events).length
      = calculate_number_of_stages input 0 := by
    rw [kernelConfigures_configure input output op f l hq hop,
      validatePlannedCalls_length input output f l h2]
  have hvlen : (validateSums input (calculate_number_of_stages input 0)).length
      = calculate_number_of_stages input 0 - 1 := by
    rw [validateSums_eq_configureSums, configureSums_length]
  exact ⟨h2, hlen, by omega, by omega, hklen, hvlen, by omega⟩

/-- Witness for C10 at the 100-wide input with SUM. -/
theorem stage_count_lower_bound_witness :
    2 ≤ calculate_number_of_stages exIn100 0 :=
  (stage_count_lower_bound exIn100 exOut ReductionOperation.SUM rfl rfl).1

end CLRed
